import Mathlib

/-!
Verification development for the payment orchestration engine.

The definitions below are a shallow embedding of the JavaScript source:
pure functions become Lean functions, stateful code becomes explicit state
passing, database effects are modelled as values threaded through the
functions, and fallible code returns `Except`/`Option`.  Each definition
names the source function it embeds.
-/

namespace Mware

/-! ### JavaScript string primitives used by the order service -/

/-- JS `String.prototype.trim()` restricted to the ASCII whitespace the
source can encounter (space, tab, CR, LF). -/
def jsTrim (s : String) : String :=
  String.mk ((s.data.dropWhile Char.isWhitespace).reverse.dropWhile Char.isWhitespace).reverse

/-- Helper for `jsStartsWith`: does the first list start with the second? -/
def startsWithAux : List Char → List Char → Bool
  | _, [] => true
  | [], _ :: _ => false
  | c :: cs, p :: ps => c == p && startsWithAux cs ps

/-- JS `String.prototype.startsWith(pat)`. -/
def jsStartsWith (s pat : String) : Bool :=
  startsWithAux s.data pat.data

/-- Helper for `jsReplaceFirst`: replace the first occurrence of `pat`
(non-empty) by the empty string. -/
def replaceFirstAux (pat : List Char) : List Char → List Char
  | [] => []
  | c :: rest =>
    if startsWithAux (c :: rest) pat then (c :: rest).drop pat.length
    else c :: replaceFirstAux pat rest

/-- JS `s.replace(pat, "")` for a plain (non-regex) pattern: removes the
first occurrence of `pat`, if any. -/
def jsReplaceFirst (s pat : String) : String :=
  String.mk (replaceFirstAux pat.data s.data)

/-- Decimal value of a list of ASCII digits. -/
def digitsVal (ds : List Char) : Nat :=
  ds.foldl (fun a c => a * 10 + (c.toNat - ('0').toNat)) 0

/-- JS `parseInt(s, 10)`: skip leading whitespace, accept an optional sign,
then take the longest prefix of ASCII digits; `none` models `NaN`. -/
def parseIntDec (s : String) : Option Int :=
  let l := s.data.dropWhile Char.isWhitespace
  match l with
  | '-' :: r =>
    let ds := r.takeWhile Char.isDigit
    if ds.isEmpty then none else some (-(digitsVal ds : Int))
  | '+' :: r =>
    let ds := r.takeWhile Char.isDigit
    if ds.isEmpty then none else some ((digitsVal ds : Int))
  | _ =>
    let ds := l.takeWhile Char.isDigit
    if ds.isEmpty then none else some ((digitsVal ds : Int))

/-! ### Order intake: `OrderService.getNextTradeOrder` (src/unnamed/part_014)

The SQL query `SELECT trade_order FROM orders ORDER BY record_id DESC
LIMIT 1` is modelled by its result: `none` when the table is empty,
`some cell` for the most recent row, whose `trade_order` column is
`Option String` (`none` models SQL NULL). -/

/-- Embeds `OrderService.getNextTradeOrder` from src/unnamed/part_014 (lines
37-55), as a function of the most recent `trade_order` cell. -/
def getNextTradeOrder (lastRow : Option (Option String)) : String :=
  let DEFAULT_START := "TO-2317"
  match lastRow with
  | none => DEFAULT_START
  | some cell =>
    match cell with
    | none => DEFAULT_START
    | some raw =>
      -- `!result.rows[0].trade_order` (empty string is falsy) …
      if raw = "" then DEFAULT_START
      -- … `|| result.rows[0].trade_order.trim() === ""`
      else if jsTrim raw = "" then DEFAULT_START
      else
        let lastTradeOrder := jsTrim raw
        if jsStartsWith lastTradeOrder "TO-" then
          match parseIntDec (jsReplaceFirst lastTradeOrder "TO-") with
          | some lastNumber => "TO-" ++ (lastNumber + 1).repr
          | none => "TO-NaN"   -- `parseInt` gave NaN; `${NaN + 1}` is "NaN"
        else DEFAULT_START

/-! ### Status normalizers (src/unnamed/part_011 and the BTCPay status
provider appended to blinkPaymentStatus.js) -/

/-- The fixed lookup table of `PoliPaymentStatus.normalizeStatus`
(src/unnamed/part_011, lines 76-88). -/
def poliStatusMap : List (String × String) :=
  [("Activated", "pending"),
   ("Completed", "completed"),
   ("Cancelled", "cancelled"),
   ("TimedOut", "expired"),
   ("Error", "error"),
   ("Unused", "pending")]

/-- Embeds `PoliPaymentStatus.normalizeStatus` (src/unnamed/part_011):
`statusMap[poliStatus] || 'unknown'`. -/
def poliNormalizeStatus (poliStatus : String) : String :=
  (poliStatusMap.lookup poliStatus).getD "unknown"

/-- The fixed lookup table of `BTCPayPaymentStatus.normalizeStatus`
(second document of blinkPaymentStatus.js, lines 214-235). -/
def btcpayStatusMap : List (String × String) :=
  [("New", "pending"),
   ("Processing", "pending"),
   ("Settled", "completed"),
   ("Complete", "completed"),
   ("Expired", "expired"),
   ("Invalid", "cancelled"),
   ("Paid", "completed"),
   ("Confirmed", "completed")]

/-- Embeds `BTCPayPaymentStatus.normalizeStatus` (second document of
blinkPaymentStatus.js): special-cases `Settled`/`paidOver` and
`Settled`/`paidPartial`, otherwise `statusMap[invoiceStatus] || 'unknown'`;
`additionalStatus` is `Option` because the field may be absent. -/
def btcpayNormalizeStatus (invoiceStatus : String) (additionalStatus : Option String) : String :=
  if invoiceStatus = "Settled" ∧ additionalStatus = some "paidOver" then "completed"
  else if invoiceStatus = "Settled" ∧ additionalStatus = some "paidPartial" then "pending"
  else (btcpayStatusMap.lookup invoiceStatus).getD "unknown"

/-- The spec's canonical state machine vocabulary (§4.6). -/
def canonicalStates : List String :=
  ["created", "pending", "completed", "expired", "cancelled", "error"]

/-! ### Fan-out orchestrator: `OrderService.generatePaymentLinks`
(src/unnamed/part_014, lines 154-219) with the per-adapter
`generatePaymentLink` insert pattern (BlinkService.generatePaymentLink in
blinkService.js lines 95-197; PoliService in src/unnamed/part_005 is the
same insert-success-or-insert-failed-and-rethrow shape). -/

/-- Outcome of one adapter's outbound `createLink` HTTP call: a 2xx
response whose body may or may not contain a redirect URI, or an HTTP /
network error. -/
inductive LinkOutcome where
  | resp (redirectUri : Option String) (payid : String)
  | httpError (msg : String)
deriving DecidableEq, Repr

/-- One row of the `payments` table as written by the adapters:
`INSERT INTO payments (order_record_id, provider, status_url, …)` with
`status_url` either `'success'` or `'failed'`. -/
structure PaymentRow where
  provider : String
  statusUrl : String
  paymentUrl : Option String
  messageUrl : Option String
deriving DecidableEq, Repr

/-- An adapter's `generatePaymentLink(orderData)` (BlinkService lines
95-197): on a response carrying a redirect URI it inserts one `'success'`
row and returns the URI; on a missing URI it throws
`No redirect_uri in response`, and on any thrown error the `catch` block
inserts one `'failed'` row and rethrows.  The first component is the list
of rows inserted, the second the thrown/returned result. -/
def generatePaymentLink (provider : String) (out : LinkOutcome) :
    List PaymentRow × Except String String :=
  match out with
  | .resp (some uri) _ =>
    ([{ provider := provider, statusUrl := "success",
        paymentUrl := some uri, messageUrl := none }], .ok uri)
  | .resp none _ =>
    ([{ provider := provider, statusUrl := "failed",
        paymentUrl := none, messageUrl := some "No redirect_uri in response" }],
     .error "No redirect_uri in response")
  | .httpError m =>
    ([{ provider := provider, statusUrl := "failed",
        paymentUrl := none, messageUrl := some m }], .error m)

/-- One branch of `OrderService.generatePaymentLinks`: the per-adapter
`try { await XService.generatePaymentLink(orderData) } catch (error) {
console.error(…) }` wrapper, which swallows the adapter's exception so the
branch always completes; only the inserted rows survive. -/
def paymentBranch (provider : String) (out : LinkOutcome) : List PaymentRow :=
  (generatePaymentLink provider out).1

/-- Embeds `OrderService.generatePaymentLinks` (src/unnamed/part_014 lines
154-219): `Promise.all` over the enabled adapters, one wrapped branch per
adapter.  `adapters` carries, per enabled adapter, its name and the
outcome of its `createLink` call; the result is the linearized list of
`payments` rows written. -/
def generatePaymentLinks (adapters : List (String × LinkOutcome)) : List PaymentRow :=
  (adapters.map (fun a => paymentBranch a.1 a.2)).flatten

/-! ### Payment expiry: `PaymentExpiryService` (src/unnamed/part_004) -/

/-- The two columns of a `payments` row that `PaymentExpiryService`
reads/writes: `status` and `error_message`. -/
structure Payment where
  status : String
  errorMessage : Option String
deriving DecidableEq, Repr

/-- Outcome of the provider `revoke` call (`blinkExpiry.revokePayment`,
including the `ensureValidToken` step before it): success, or a thrown
error whose `error.response?.status` is the optional HTTP status. -/
inductive RevokeOutcome where
  | ok
  | httpError (status : Option Nat)
deriving DecidableEq, Repr

/-- Errors thrown by `PaymentExpiryService.processExpiry`. -/
inductive ExpiryError where
  | notFound
  | unsupportedProvider (p : String)
  | revokeFailed (httpStatus : Option Nat)
deriving DecidableEq, Repr

/-- Result of one `processExpiry` run: the thrown/returned outcome, whether
the provider `revoke` call was made, the `payments` row after the
transaction (rolled back on error), and the log line. -/
structure ExpiryRun where
  result : Except ExpiryError Unit
  revokeCalled : Bool
  row : Option Payment
  log : String
deriving Repr

/-- Embeds `PaymentExpiryService.processExpiry` (src/unnamed/part_004, lines
48-99), as a function of the `SELECT * FROM payments WHERE payid = …`
result and of the revoke call's outcome.  Only a payment whose `status` is
still `'success'` is revoked and updated to `'expired'`; any other status
skips the provider call and leaves the row untouched. -/
def processExpiry (payid : String) (row : Option Payment) (provider : String)
    (revoke : RevokeOutcome) : ExpiryRun :=
  match row with
  | none => { result := .error .notFound, revokeCalled := false, row := none,
              log := "Payment " ++ payid ++ " not found" }
  | some payment =>
    if payment.status = "success" then
      if provider = "BLINK" then
        match revoke with
        | .ok =>
          { result := .ok (),
            revokeCalled := true,
            row := some { status := "expired",
                          errorMessage := some "Payment link expired" },
            log := "Successfully expired " ++ provider ++ " payment " ++ payid }
        | .httpError s =>
          -- the transaction rolls back, so the row is unchanged
          { result := .error (.revokeFailed s), revokeCalled := true,
            row := some payment, log := "" }
      else
        { result := .error (.unsupportedProvider provider), revokeCalled := false,
          row := some payment, log := "" }
    else
      { result := .ok (), revokeCalled := false, row := some payment,
        log := "Payment " ++ payid ++ " already in " ++ payment.status ++
               " status, skipping expiry" }

/-- The object returned by the expiry queue processor on completion:
`{ success: true, payid, provider }`, optionally with
`status: 'already_expired'`. -/
structure ExpiryJobReturn where
  success : Bool
  status : Option String
deriving DecidableEq, Repr

/-- The queue processor installed by
`PaymentExpiryService.setupQueueProcessor` (src/unnamed/part_004, lines
11-31): runs `processExpiry`; a thrown error whose
`error.response?.status` is 404 or 410 is treated as the link already
being gone — `updatePaymentStatus(payid, 'expired', 'Payment already
expired')` runs and the job completes successfully; any other error is
rethrown (failing the job).  Returns the job outcome and the final
`payments` row. -/
def runExpiryJob (payid : String) (row : Option Payment) (provider : String)
    (revoke : RevokeOutcome) : Except ExpiryError ExpiryJobReturn × Option Payment :=
  let r := processExpiry payid row provider revoke
  match r.result with
  | .ok _ => (.ok { success := true, status := none }, r.row)
  | .error e =>
    match e with
    | .revokeFailed (some 404) =>
      (.ok { success := true, status := some "already_expired" },
       r.row.map (fun _ => { status := "expired",
                             errorMessage := some "Payment already expired" }))
    | .revokeFailed (some 410) =>
      (.ok { success := true, status := some "already_expired" },
       r.row.map (fun _ => { status := "expired",
                             errorMessage := some "Payment already expired" }))
    | _ => (.error e, r.row)

/-! ### Delayed job scheduling (paymentStatusQueue.js and
`PaymentExpiryService.scheduleExpiry` in src/unnamed/part_004)

Modelled from the spec: the Bull queue library is not part of src/; the
spec's §4.5 contract — "a job with the same idempotency key scheduled
twice must not execute twice (duplicate submission is a no-op)" — is the
behaviour of Bull's `jobId` option that the source relies on, so `addJob`
keeps a queue as a `jobId`-keyed association list and ignores a submission
whose `jobId` is already present. -/

/-- Bull `queue.add(data, { jobId })`, modelled from the spec: adding a
job whose `jobId` already exists is a no-op. -/
def addJob {α : Type} (q : List (String × α)) (jobId : String) (d : α) :
    List (String × α) :=
  if q.any (fun e => e.1 == jobId) then q else q ++ [(jobId, d)]

/-- Whether a queue already holds a job with the given id. -/
def containsId {α : Type} (q : List (String × α)) (jobId : String) : Bool :=
  q.any (fun e => e.1 == jobId)

/-- Number of jobs in the queue with the given id. -/
def countId {α : Type} (q : List (String × α)) (jobId : String) : Nat :=
  (q.filter (fun e => e.1 == jobId)).length

/-- The `payment` argument of `schedulePaymentStatusChecks`: `record_id`
and `payid` are `Option` because the function guards
`!payment.payid || !payment.record_id`. -/
structure StatusCheckPayment where
  record_id : Option Nat
  payid : Option String
  provider : String
deriving DecidableEq, Repr

/-- Payload of one `status-check` job (paymentStatusQueue.js). -/
structure StatusJobData where
  paymentId : Nat
  payid : String
  provider : String
  checkTime : String
deriving DecidableEq, Repr

/-- Embeds `schedulePaymentStatusChecks(payment)` (paymentStatusQueue.js lines
119-156): if the required fields are present, adds the two checkpoint jobs
with deterministic ids `${provider}-${payid}-1min` and
`${provider}-${payid}-3min`; otherwise does nothing. -/
def schedulePaymentStatusChecks (payment : StatusCheckPayment)
    (q : List (String × StatusJobData)) : List (String × StatusJobData) :=
  match payment.payid, payment.record_id with
  | some payid, some rid =>
    let q1 := addJob q (payment.provider ++ "-" ++ payid ++ "-1min")
      { paymentId := rid, payid := payid, provider := payment.provider,
        checkTime := "1min" }
    addJob q1 (payment.provider ++ "-" ++ payid ++ "-3min")
      { paymentId := rid, payid := payid, provider := payment.provider,
        checkTime := "3min" }
  | _, _ => q

/-- Payload of one `expiry-revoke` job (src/unnamed/part_004). -/
structure ExpiryJobData where
  payid : String
  provider : String
deriving DecidableEq, Repr

/-- Embeds `PaymentExpiryService.scheduleExpiry(payid, provider)`
(src/unnamed/part_004 lines 101-122): adds one job with deterministic id
`${provider}-${payid}`. -/
def scheduleExpiry (payid provider : String)
    (q : List (String × ExpiryJobData)) : List (String × ExpiryJobData) :=
  addJob q (provider ++ "-" ++ payid) { payid := payid, provider := provider }

/-! ### Status-check worker: paymentStatusQueue.js processor and the four
status providers under src/src/services/payments/paystatus/providers/ -/

/-- Queue options as passed to the Bull constructor. -/
structure QueueOptions where
  attempts : Nat
  backoffType : String
  backoffDelay : Nat
  removeOnComplete : Bool
  removeOnFail : Nat
deriving DecidableEq, Repr

/-- The `defaultJobOptions` of `paymentStatusQueue` (paymentStatusQueue.js
lines 21-31): 3 attempts, exponential backoff from 2000ms, completed jobs
removed, the last 100 failed jobs kept for inspection. -/
def paymentStatusQueueOptions : QueueOptions :=
  { attempts := 3, backoffType := "exponential", backoffDelay := 2000,
    removeOnComplete := true, removeOnFail := 100 }

/-- The provider response fields the four status providers read. -/
structure ProviderResponse where
  poliData : String := ""
  paymentStatus : Option String := none
  sessionStatus : Option String := none
  btcpayStatus : Option String := none
  btcpayAdditionalStatus : Option String := none
deriving DecidableEq, Repr

/-- Outcome of a provider's outbound status HTTP call: a 2xx body, or a
thrown error with its optional `error.response?.status` and resolved
message. -/
inductive ApiResult where
  | ok (body : ProviderResponse)
  | err (httpStatus : Option Nat) (msg : String)
deriving DecidableEq, Repr

/-- The `{status, originalStatus, message}` object every status provider
returns. -/
structure StatusResult where
  status : String
  originalStatus : String
  message : String
deriving DecidableEq, Repr

/-- JS `data.replace(/^"|"$/g, '')` in poliPaymentStatus.js: strip one
leading and one trailing double quote. -/
def stripQuotes (s : String) : String :=
  let l := s.data
  let l1 := match l with
    | '"' :: r => r
    | _ => l
  let l2 := if l1.getLast? = some '"' then l1.dropLast else l1
  String.mk l2

/-- Embeds `PoliPaymentStatus.checkStatus` (named file
src/src/services/payments/paystatus/providers/poliPaymentStatus.js): on a
2xx response returns the raw (quote-stripped) status; on a thrown error it
is caught and `status: 'error'` is returned — the function never throws
(lines 60-72 are the catch block the claims cite). -/
def poliCheckStatus (api : ApiResult) : StatusResult :=
  match api with
  | .ok body =>
    let status := stripQuotes body.poliData
    { status := status, originalStatus := status,
      message := "POLi status check successful: " ++ status }
  | .err httpStatus msg =>
    { status := "error",
      originalStatus := (httpStatus.map Nat.repr).getD "unknown",
      message := msg }

/-- Embeds `StripePaymentStatus.normalizeStatus` (stripePaymentStatus.js lines
68-82); the arguments are `Option` because the response fields may be
absent. -/
def stripeNormalizeStatus (paymentStatus sessionStatus : Option String) : String :=
  if sessionStatus = some "expired" then "expired"
  else if sessionStatus = some "open" then "pending"
  else
    ((paymentStatus.bind (fun p =>
      ([("unpaid", "pending"),
        ("paid", "completed"),
        ("no_payment_required", "completed"),
        ("canceled", "cancelled")] : List (String × String)).lookup p)).getD "unknown")

/-- Embeds `StripePaymentStatus.checkStatus` (stripePaymentStatus.js): never
throws; errors are caught and returned as `status: 'error'`. -/
def stripeCheckStatus (api : ApiResult) : StatusResult :=
  match api with
  | .ok body =>
    { status := stripeNormalizeStatus body.paymentStatus body.sessionStatus,
      originalStatus := (body.sessionStatus.getD "undefined") ++ "/" ++
                        (body.paymentStatus.getD "undefined"),
      message := "Stripe status check successful: " ++
                 (body.paymentStatus.getD "undefined") }
  | .err httpStatus msg =>
    { status := "error",
      originalStatus := (httpStatus.map Nat.repr).getD "unknown",
      message := msg }

/-- Embeds `AlipayPaymentStatus.normalizeStatus` (alipayPaymentStatus.js) —
textually the same table as the Stripe provider's. -/
def alipayNormalizeStatus (paymentStatus sessionStatus : Option String) : String :=
  if sessionStatus = some "expired" then "expired"
  else if sessionStatus = some "open" then "pending"
  else
    ((paymentStatus.bind (fun p =>
      ([("unpaid", "pending"),
        ("paid", "completed"),
        ("no_payment_required", "completed"),
        ("canceled", "cancelled")] : List (String × String)).lookup p)).getD "unknown")

/-- Embeds `AlipayPaymentStatus.checkStatus` (alipayPaymentStatus.js): never
throws. -/
def alipayCheckStatus (api : ApiResult) : StatusResult :=
  match api with
  | .ok body =>
    { status := alipayNormalizeStatus body.paymentStatus body.sessionStatus,
      originalStatus := (body.sessionStatus.getD "undefined") ++ "/" ++
                        (body.paymentStatus.getD "undefined"),
      message := "Alipay status check successful: " ++
                 (body.paymentStatus.getD "undefined") }
  | .err httpStatus msg =>
    { status := "error",
      originalStatus := (httpStatus.map Nat.repr).getD "unknown",
      message := msg }

/-- Embeds `BTCPayPaymentStatus.checkStatus` (named file btcpayPaymentStatus.js):
returns `response.data.status || 'unknown'` raw; never throws. -/
def btcpayCheckStatus (api : ApiResult) : StatusResult :=
  match api with
  | .ok body =>
    let status := body.btcpayStatus.getD "unknown"
    { status := status,
      originalStatus := status ++ "/" ++ (body.btcpayAdditionalStatus.getD "none"),
      message := "BTCPay status check successful: " ++ status }
  | .err httpStatus msg =>
    { status := "error",
      originalStatus := (httpStatus.map Nat.repr).getD "unknown",
      message := msg }

/-- The raw job payload as seen by the processor, before its own
validation of `paymentId`/`payid`. -/
structure RawStatusJobData where
  paymentId : Option Nat
  payid : Option String
  provider : String
  checkTime : String
deriving DecidableEq, Repr

/-- The ways the `paymentStatusQueue.process` handler can throw. -/
inductive ProcessError where
  | missingData
  | unsupportedProvider (p : String)
  | logFailed (msg : String)
deriving DecidableEq, Repr

/-- The object the processor returns on completion. -/
structure StatusCheckJobReturn where
  paymentId : Nat
  payid : String
  provider : String
  status : String
  message : String
deriving DecidableEq, Repr

/-- The `paymentStatusQueue.process` handler (paymentStatusQueue.js lines
34-94) as a function of the job data, of the provider call's outcome and
of whether the `logStatusCheck` insert succeeds.  It throws
(`Except.error`, which is what triggers Bull's retry) only on missing job
data, an unsupported provider, or a failing audit insert; a provider-side
error has already been converted by the provider into a `'error'` status
result, which is logged and completes the job. -/
def processStatusJob (d : RawStatusJobData) (api : ApiResult) (logOk : Bool) :
    Except ProcessError StatusCheckJobReturn :=
  match d.paymentId, d.payid with
  | some pid, some payid =>
    let res :=
      if d.provider = "POLi" then .ok (poliCheckStatus api)
      else if d.provider = "STRIPE" then .ok (stripeCheckStatus api)
      else if d.provider = "ALIPAY" then .ok (alipayCheckStatus api)
      else if d.provider = "BTCPAY" then .ok (btcpayCheckStatus api)
      else (.error (.unsupportedProvider d.provider) :
            Except ProcessError StatusResult)
    match res with
    | .error e => .error e
    | .ok r =>
      if logOk then
        .ok { paymentId := pid, payid := payid, provider := d.provider,
              status := r.status, message := r.message }
      else .error (.logFailed r.message)
  | _, _ => .error .missingData

/-- Modelled from the spec: Bull's retry driver for one job ("each job
retries with exponential backoff, bounded attempts; after exhaustion the
job is abandoned and surfaced for operational visibility").  The handler
here is a pure value, so a failing job fails on every attempt: it uses all
`opts.attempts` attempts and is then kept in the failed set when
`removeOnFail` retains failures; a successful job completes on its first
attempt and is removed when `removeOnComplete` is set. -/
def runBullJob {E R : Type} (opts : QueueOptions) (handler : Except E R) :
    Nat × Bool × Bool :=
  match handler with
  | .ok _ => (1, true, !opts.removeOnComplete)
  | .error _ => (opts.attempts, false, decide (0 < opts.removeOnFail))

/-- Modelled from the spec: Bull's exponential backoff delay before retry
`k` (0-based) with initial delay `opts.backoffDelay`. -/
def bullBackoff (opts : QueueOptions) (k : Nat) : Nat :=
  opts.backoffDelay * 2 ^ k

/-! ### Status by token: `PaymentService.getStatusByToken`
(src/src/services/payments/paymentService.js, first document, lines
22-74) -/

/-- The columns of one row of the token query
`SELECT p.payment_url, p.status, p.created_at, p.error_message, p.provider
FROM payments p JOIN orders o … WHERE o.token = $1`. -/
structure TokenPaymentRow where
  paymentUrl : Option String
  status : String
  createdAt : Nat
  errorMessage : Option String
  provider : String
deriving DecidableEq, Repr

/-- JS `paymentUrls[provider] = v`: replace the value if the key is
already a property, otherwise append it. -/
def upsert : List (String × String) → String → String → List (String × String)
  | [], k, v => [(k, v)]
  | (k0, v0) :: rest, k, v =>
    if k0 = k then (k0, v) :: rest else (k0, v0) :: upsert rest k v

/-- What `getStatusByToken` resolves to: either
`{status: 'pending', message: 'Payment processing'}` or
`{status: 'success', payments: {provider: {payment_url, provider}, …}}`;
`payments` keeps only each entry's URL. -/
structure StatusByTokenResult where
  status : String
  message : Option String
  payments : List (String × String)
deriving DecidableEq, Repr

/-- The `forEach` body of `getStatusByToken`: a row contributes an entry
iff `row.status === 'success' && row.payment_url` (the empty string is
falsy). -/
def tokenRowStep (m : List (String × String)) (r : TokenPaymentRow) :
    List (String × String) :=
  if r.status = "success" then
    match r.paymentUrl with
    | some u => if u = "" then m else upsert m r.provider u
    | none => m
  else m

/-- Embeds `PaymentService.getStatusByToken` (first document of
paymentService.js): `rows` models the order's `payments` rows in the
query's `created_at DESC` order; the query keeps only `status = 'success'`
rows, and the function returns the pending object when none exist,
otherwise the aggregated provider → url map. -/
def getStatusByToken (rows : List TokenPaymentRow) : StatusByTokenResult :=
  let result := rows.filter (fun r => r.status == "success")
  if result.isEmpty then
    { status := "pending", message := some "Payment processing", payments := [] }
  else
    { status := "success", message := none,
      payments := result.foldl tokenRowStep [] }

/-! ### Credential cache: `BlinkService.ensureValidToken`
(blinkService.js lines 88-93) under concurrent callers -/

/-- The class-held token state: `this.accessToken`, `this.tokenExpiry`. -/
structure TokenCache where
  accessToken : Option String
  tokenExpiry : Option Nat
deriving DecidableEq, Repr

/-- The guard of `ensureValidToken`:
`!this.accessToken || !this.tokenExpiry ||
 Date.now() >= this.tokenExpiry - 60000`. -/
def needsRefresh (c : TokenCache) (now : Nat) : Bool :=
  match c.accessToken, c.tokenExpiry with
  | none, _ => true
  | _, none => true
  | some _, some e => decide (now ≥ e - 60000)

/-- Where a caller of `ensureValidToken` stands: about to evaluate the
guard, about to `await this.getAccessToken()` (the suspension point), or
returned. -/
inductive CallerPC where
  | start
  | refreshing
  | done
deriving DecidableEq, Repr

/-- Joint state of the shared cache, the number of `getAccessToken`
(client-credentials refresh) calls performed, and two concurrent callers
of `ensureValidToken` on the same adapter instance. -/
structure SingleFlightState where
  cache : TokenCache
  refreshCalls : Nat
  pcA : CallerPC
  pcB : CallerPC
deriving DecidableEq, Repr

/-- One caller's next step of `ensureValidToken`.  At `start` it evaluates
the guard on the shared cache and either proceeds to refresh or returns;
at `refreshing` it performs `getAccessToken()`, which overwrites
`accessToken`/`tokenExpiry` and counts one refresh call.  There is no
guard re-check after the suspension point and no single-flight lock in the
source. -/
def callerStep (now : Nat) (tok : String) (expiresInMs : Nat)
    (pc : CallerPC) (cache : TokenCache) (refreshCalls : Nat) :
    CallerPC × TokenCache × Nat :=
  match pc with
  | .start =>
    if needsRefresh cache now then (.refreshing, cache, refreshCalls)
    else (.done, cache, refreshCalls)
  | .refreshing =>
    (.done, { accessToken := some tok, tokenExpiry := some (now + expiresInMs) },
     refreshCalls + 1)
  | .done => (.done, cache, refreshCalls)

/-- Run an interleaving of the two callers: `true` schedules caller A,
`false` caller B. -/
def runSchedule (now : Nat) (tok : String) (expiresInMs : Nat) :
    List Bool → SingleFlightState → SingleFlightState
  | [], s => s
  | pick :: rest, s =>
    if pick then
      let (pc, cache, n) := callerStep now tok expiresInMs s.pcA s.cache s.refreshCalls
      runSchedule now tok expiresInMs rest
        { cache := cache, refreshCalls := n, pcA := pc, pcB := s.pcB }
    else
      let (pc, cache, n) := callerStep now tok expiresInMs s.pcB s.cache s.refreshCalls
      runSchedule now tok expiresInMs rest
        { cache := cache, refreshCalls := n, pcA := s.pcA, pcB := pc }

/-! ## Theorems -/

/-! ### Queue helper lemmas -/

theorem containsId_addJob_self {α : Type} (q : List (String × α)) (jobId : String)
    (d : α) : containsId (addJob q jobId d) jobId = true := by
  unfold containsId addJob
  split
  · assumption
  · simp

theorem containsId_addJob_of {α : Type} {q : List (String × α)} {j : String}
    (jobId : String) (d : α) (h : containsId q j = true) :
    containsId (addJob q jobId d) j = true := by
  unfold containsId addJob
  split
  · exact h
  · unfold containsId at h
    simp [List.any_append, h]

theorem addJob_of_contains {α : Type} {q : List (String × α)} {jobId : String}
    (d : α) (h : containsId q jobId = true) : addJob q jobId d = q := by
  unfold addJob
  unfold containsId at h
  simp [h]

/-- Claim C2: a `createOrder` call allocates the order number by taking the
most recently stored order number, parsing its numeric suffix and
incrementing it by one — `TO-n` yields `TO-(n+1)` (e.g. `TO-2317` yields
`TO-2318`) — and uses the configured base `TO-2317` when no prior order
exists. -/
theorem getNextTradeOrder_spec :
    getNextTradeOrder none = "TO-2317" ∧
    ∀ (s : String) (n : Nat), jsTrim ("TO-" ++ s) = "TO-" ++ s →
      parseIntDec s = some (n : Int) →
      getNextTradeOrder (some (some ("TO-" ++ s))) = "TO-" ++ (n + 1).repr := by
  refine ⟨rfl, ?_⟩
  intro s n htrim hparse
  have hne : ¬ ("TO-" ++ s) = "" := by
    intro h
    have h2 := congrArg String.data h
    simp [String.data_append] at h2
  have hrep : jsReplaceFirst ("TO-" ++ s) "TO-" = s := by
    obtain ⟨l⟩ := s
    simp [jsReplaceFirst, String.data_append, replaceFirstAux, startsWithAux]
  have hsw : jsStartsWith ("TO-" ++ s) "TO-" = true := by
    simp [jsStartsWith, String.data_append, startsWithAux]
  have hcast : ((n : Int) + 1) = (((n + 1 : Nat)) : Int) := by push_cast; ring
  simp only [getNextTradeOrder, htrim, hsw, hrep, hparse, hcast, if_neg hne, if_true]
  rfl

/-- Witness for `getNextTradeOrder_spec`: most recent order `TO-2317`
yields `TO-2318`. -/
theorem getNextTradeOrder_spec_witness :
    getNextTradeOrder (some (some ("TO-" ++ "2317"))) = "TO-" ++ (2317 + 1).repr :=
  getNextTradeOrder_spec.2 "2317" 2317 (by decide) (by decide)

/-- Claim C7: POLi status normalization is a pure function — equal raw
statuses give equal canonical states — given by the fixed lookup table
`poliStatusMap`; in particular `"Activated"` maps to `pending` and
`"Completed"` to `completed`. -/
theorem poliNormalizeStatus_pure_lookup :
    (∀ s t : String, s = t → poliNormalizeStatus s = poliNormalizeStatus t) ∧
    (∀ s : String, poliNormalizeStatus s = (poliStatusMap.lookup s).getD "unknown") ∧
    poliNormalizeStatus "Activated" = "pending" ∧
    poliNormalizeStatus "Completed" = "completed" :=
  ⟨fun _ _ h => by rw [h], fun _ => rfl, rfl, rfl⟩

/-- Witness for `poliNormalizeStatus_pure_lookup` at the raw status
`"Activated"`. -/
theorem poliNormalizeStatus_pure_lookup_witness :
    poliNormalizeStatus "Activated" = poliNormalizeStatus "Activated" :=
  poliNormalizeStatus_pure_lookup.1 "Activated" "Activated" rfl

/-- Claim C10: on any raw status outside a provider's lookup table the
normalizer totally returns `"unknown"` instead of throwing, and
`"unknown"` lies outside the spec's canonical state set. -/
theorem normalizeStatus_unknown_total :
    (∀ s : String, poliStatusMap.lookup s = none → poliNormalizeStatus s = "unknown") ∧
    (∀ (s : String) (add : Option String), btcpayStatusMap.lookup s = none →
       btcpayNormalizeStatus s add = "unknown") ∧
    "unknown" ∉ canonicalStates := by
  refine ⟨?_, ?_, by decide⟩
  · intro s h
    simp [poliNormalizeStatus, h]
  · intro s add h
    have hs : ¬ s = "Settled" := by
      intro he
      subst he
      simp [btcpayStatusMap, List.lookup] at h
    simp [btcpayNormalizeStatus, hs, h]

/-- Witness for `normalizeStatus_unknown_total`: the raw strings
`"Pending"` and `"pending"` are in neither table. -/
theorem normalizeStatus_unknown_total_witness :
    poliNormalizeStatus "Pending" = "unknown" ∧
    btcpayNormalizeStatus "pending" none = "unknown" :=
  ⟨normalizeStatus_unknown_total.1 "Pending" (by decide),
   normalizeStatus_unknown_total.2.1 "pending" none (by decide)⟩

/-- Claim C3: an expiry-revoke run against a payment already in a terminal
canonical state (in particular `completed`) makes no provider revoke call,
leaves the row unchanged, completes without error and records only the
no-op skip message. -/
theorem processExpiry_terminal_noop (payid : String) (p : Payment)
    (rev : RevokeOutcome)
    (h : p.status = "completed" ∨ p.status = "expired" ∨
         p.status = "cancelled" ∨ p.status = "error") :
    (processExpiry payid (some p) "BLINK" rev).revokeCalled = false ∧
    (processExpiry payid (some p) "BLINK" rev).row = some p ∧
    (processExpiry payid (some p) "BLINK" rev).result = .ok () ∧
    (processExpiry payid (some p) "BLINK" rev).log =
      "Payment " ++ payid ++ " already in " ++ p.status ++
      " status, skipping expiry" := by
  have hne : ¬ p.status = "success" := by
    rcases h with h | h | h | h <;> simp [h]
  simp [processExpiry, hne]

/-- Witness for `processExpiry_terminal_noop` at a `completed` payment. -/
theorem processExpiry_terminal_noop_witness :
    (processExpiry "pay1" (some ⟨"completed", none⟩) "BLINK" .ok).revokeCalled = false ∧
    (processExpiry "pay1" (some ⟨"completed", none⟩) "BLINK" .ok).row =
      some ⟨"completed", none⟩ ∧
    (processExpiry "pay1" (some ⟨"completed", none⟩) "BLINK" .ok).result = .ok () ∧
    (processExpiry "pay1" (some ⟨"completed", none⟩) "BLINK" .ok).log =
      "Payment " ++ "pay1" ++ " already in " ++ "completed" ++
      " status, skipping expiry" :=
  processExpiry_terminal_noop "pay1" ⟨"completed", none⟩ .ok (Or.inl rfl)

/-- Claim C6: when the provider answers the revoke of a still-active
payment with HTTP 404 or 410, the expiry job completes successfully with
outcome `already_expired` and the payment's status is set to `expired`,
not to an error. -/
theorem runExpiryJob_gone_is_expired (payid : String) (p : Payment) (s : Nat)
    (hp : p.status = "success") (hs : s = 404 ∨ s = 410) :
    runExpiryJob payid (some p) "BLINK" (.httpError (some s)) =
      (.ok { success := true, status := some "already_expired" },
       some { status := "expired",
              errorMessage := some "Payment already expired" }) := by
  rcases hs with h | h <;> subst h <;> simp [runExpiryJob, processExpiry, hp]

/-- Witness for `runExpiryJob_gone_is_expired` at HTTP 404. -/
theorem runExpiryJob_gone_is_expired_witness :
    runExpiryJob "pay2" (some ⟨"success", none⟩) "BLINK" (.httpError (some 404)) =
      (.ok { success := true, status := some "already_expired" },
       some { status := "expired",
              errorMessage := some "Payment already expired" }) :=
  runExpiryJob_gone_is_expired "pay2" ⟨"success", none⟩ 404 rfl (Or.inl rfl)

/-- Claim C9 (code behaviour at the failing input): two concurrent callers
of `ensureValidToken` on one adapter instance, both reaching the guard
before either refresh lands, each perform their own client-credentials
refresh — 2 refresh calls, not at most 1.  The source has no single-flight
guard. -/
theorem ensureValidToken_concurrent_double_refresh :
    (runSchedule 0 "tok" 3600000 [true, false, true, false]
      { cache := { accessToken := none, tokenExpiry := none },
        refreshCalls := 0, pcA := .start, pcB := .start }).refreshCalls = 2 ∧
    (runSchedule 0 "tok" 3600000 [true, false, true, false]
      { cache := { accessToken := none, tokenExpiry := none },
        refreshCalls := 0, pcA := .start, pcB := .start }).pcA = .done ∧
    (runSchedule 0 "tok" 3600000 [true, false, true, false]
      { cache := { accessToken := none, tokenExpiry := none },
        refreshCalls := 0, pcA := .start, pcB := .start }).pcB = .done := by
  refine ⟨rfl, rfl, rfl⟩

/-- Claim C1: a fan-out over `adapters` (one entry per enabled adapter,
with that adapter's `createLink` outcome) always persists exactly one
`payments` row per adapter — whatever subset of the calls fails — and the
i-th row records the i-th adapter's own success or failure; no branch's
exception removes a sibling's row. -/
theorem generatePaymentLinks_one_row_per_adapter
    (adapters : List (String × LinkOutcome)) :
    (generatePaymentLinks adapters).length = adapters.length ∧
    ∀ (i : Nat) (hi : i < adapters.length),
      ∃ hj : i < (generatePaymentLinks adapters).length,
        ((generatePaymentLinks adapters).get ⟨i, hj⟩).provider =
          (adapters.get ⟨i, hi⟩).1 ∧
        ((generatePaymentLinks adapters).get ⟨i, hj⟩).statusUrl =
          (match (adapters.get ⟨i, hi⟩).2 with
           | .resp (some _) _ => "success"
           | _ => "failed") := by
  have hbranch : ∀ (p : String) (o : LinkOutcome), paymentBranch p o =
      [{ provider := p,
         statusUrl := match o with
           | .resp (some _) _ => "success"
           | _ => "failed",
         paymentUrl := match o with
           | .resp u _ => u
           | .httpError _ => none,
         messageUrl := match o with
           | .resp (some _) _ => none
           | .resp none _ => some "No redirect_uri in response"
           | .httpError m => some m }] := by
    intro p o
    cases o with
    | resp u pid => cases u <;> rfl
    | httpError m => rfl
  have key : ∀ l : List (String × LinkOutcome),
      generatePaymentLinks l = l.map (fun a =>
        { provider := a.1,
          statusUrl := match a.2 with
            | .resp (some _) _ => "success"
            | _ => "failed",
          paymentUrl := match a.2 with
            | .resp u _ => u
            | .httpError _ => none,
          messageUrl := match a.2 with
            | .resp (some _) _ => none
            | .resp none _ => some "No redirect_uri in response"
            | .httpError m => some m }) := by
    intro l
    induction l with
    | nil => rfl
    | cons a t ih =>
      obtain ⟨p, o⟩ := a
      show (List.map _ ((p, o) :: t)).flatten = _
      rw [List.map_cons, List.flatten_cons, hbranch, List.map_cons,
          List.singleton_append]
      exact congrArg (List.cons _) ih
  have hlen : (generatePaymentLinks adapters).length = adapters.length := by
    rw [key]; exact List.length_map _ _
  refine ⟨hlen, ?_⟩
  intro i hi
  refine ⟨by rw [hlen]; exact hi, ?_⟩
  simp only [List.get_eq_getElem, key, List.getElem_map]
  exact ⟨trivial, trivial⟩

/-- Witness for `generatePaymentLinks_one_row_per_adapter`: two enabled
adapters, the first succeeding, the second failing with an HTTP 500 —
exactly two rows, `success` then `failed`. -/
theorem generatePaymentLinks_one_row_per_adapter_witness :
    (generatePaymentLinks
        [("BLINK", .resp (some "https://pay.example/a") "qp-1"),
         ("POLi", .httpError "Request failed with status code 500")]).length = 2 ∧
    ∃ hj : 1 < (generatePaymentLinks
        [("BLINK", .resp (some "https://pay.example/a") "qp-1"),
         ("POLi", .httpError "Request failed with status code 500")]).length,
      ((generatePaymentLinks
        [("BLINK", .resp (some "https://pay.example/a") "qp-1"),
         ("POLi", .httpError "Request failed with status code 500")]).get
          ⟨1, hj⟩).provider = "POLi" ∧
      ((generatePaymentLinks
        [("BLINK", .resp (some "https://pay.example/a") "qp-1"),
         ("POLi", .httpError "Request failed with status code 500")]).get
          ⟨1, hj⟩).statusUrl = "failed" :=
  ⟨(generatePaymentLinks_one_row_per_adapter _).1,
   (generatePaymentLinks_one_row_per_adapter _).2 1 (by decide)⟩

/-- Claim C4: scheduling with the same deterministic idempotency key twice
yields at most one executable job — the second submission of the two
status checkpoints and of the expiry job is a no-op, and a key submitted
twice into an empty queue holds exactly one job. -/
theorem schedule_same_key_noop :
    (∀ (payment : StatusCheckPayment) (q : List (String × StatusJobData)),
      schedulePaymentStatusChecks payment (schedulePaymentStatusChecks payment q) =
        schedulePaymentStatusChecks payment q) ∧
    (∀ (payid provider : String) (q : List (String × ExpiryJobData)),
      scheduleExpiry payid provider (scheduleExpiry payid provider q) =
        scheduleExpiry payid provider q) ∧
    (∀ (jobId : String) (d e : StatusJobData),
      countId (addJob (addJob ([] : List (String × StatusJobData)) jobId d) jobId e)
        jobId = 1) := by
  refine ⟨?_, ?_, ?_⟩
  · intro payment q
    unfold schedulePaymentStatusChecks
    cases hp : payment.payid with
    | none => simp
    | some payid =>
      cases hr : payment.record_id with
      | none => simp
      | some rid =>
        simp only []
        have h1 : containsId
            (addJob (addJob q (payment.provider ++ "-" ++ payid ++ "-1min")
                { paymentId := rid, payid := payid, provider := payment.provider,
                  checkTime := "1min" })
              (payment.provider ++ "-" ++ payid ++ "-3min")
                { paymentId := rid, payid := payid, provider := payment.provider,
                  checkTime := "3min" })
            (payment.provider ++ "-" ++ payid ++ "-1min") = true :=
          containsId_addJob_of _ _ (containsId_addJob_self _ _ _)

        rw [addJob_of_contains _ h1,
            addJob_of_contains _ (containsId_addJob_self _ _ _)]
  · intro payid provider q
    unfold scheduleExpiry
    rw [addJob_of_contains _ (containsId_addJob_self _ _ _)]
  · intro jobId d e
    have h0 : addJob ([] : List (String × StatusJobData)) jobId d = [(jobId, d)] := by
      simp [addJob]
    rw [h0, addJob_of_contains _ (by simp [containsId])]
    simp [countId]

/-- Claim C5, counterexample: a status-check job whose POLi call fails
with a network timeout is NOT retried — the provider converts the error
into a `'error'` status result, the handler completes on its first
attempt, and (with `removeOnComplete`) the job is not kept, contradicting
"retried with exponential backoff up to 3 attempts, then abandoned but
visible". -/
theorem statusCheck_provider_error_not_retried :
    processStatusJob
        { paymentId := some 7, payid := some "P-1", provider := "POLi",
          checkTime := "1min" }
        (.err none "timeout of 10000ms exceeded") true =
      .ok { paymentId := 7, payid := "P-1", provider := "POLi",
            status := "error", message := "timeout of 10000ms exceeded" } ∧
    runBullJob paymentStatusQueueOptions
        (processStatusJob
          { paymentId := some 7, payid := some "P-1", provider := "POLi",
            checkTime := "1min" }
          (.err none "timeout of 10000ms exceeded") true) =
      (1, true, false) :=
  ⟨rfl, rfl⟩

/-- Claim C5 as amended: network/timeout/provider errors during the
provider call are caught inside `checkStatus` and recorded as an `'error'`
status — the job completes on its first attempt and is not retried; only a
handler that actually throws (here: the audit-log insert failing) is
retried with exponential backoff (2000·2^k ms) up to the configured 3
attempts and is then kept in the failed set for operator follow-up rather
than silently dropped. -/
theorem statusCheck_retry_policy
    (d : RawStatusJobData) (api : ApiResult) (pid : Nat) (payid : String)
    (h1 : d.paymentId = some pid) (h2 : d.payid = some payid)
    (h3 : d.provider = "POLi") :
    (∀ st msg, api = .err st msg →
      processStatusJob d api true =
        .ok { paymentId := pid, payid := payid, provider := "POLi",
              status := "error", message := msg } ∧
      runBullJob paymentStatusQueueOptions (processStatusJob d api true) =
        (1, true, false)) ∧
    (processStatusJob d api false =
        .error (.logFailed (poliCheckStatus api).message) ∧
      runBullJob paymentStatusQueueOptions (processStatusJob d api false) =
        (3, false, true)) ∧
    paymentStatusQueueOptions.attempts = 3 ∧
    paymentStatusQueueOptions.backoffType = "exponential" ∧
    (∀ k, bullBackoff paymentStatusQueueOptions k = 2000 * 2 ^ k) := by
  have hjob : ∀ logOk, processStatusJob d api logOk =
      (if logOk then
        .ok { paymentId := pid, payid := payid, provider := "POLi",
              status := (poliCheckStatus api).status,
              message := (poliCheckStatus api).message }
       else .error (.logFailed (poliCheckStatus api).message)) := by
    intro logOk
    simp [processStatusJob, h1, h2, h3]
  refine ⟨?_, ?_, rfl, rfl, fun k => rfl⟩
  · intro st msg hapi
    subst hapi
    refine ⟨?_, ?_⟩
    · rw [hjob true]
      simp [poliCheckStatus]
    · rw [hjob true]
      rfl
  · refine ⟨hjob false, ?_⟩
    rw [hjob false]
    rfl

/-- Witness for `statusCheck_retry_policy` at a concrete POLi job and a
concrete provider error. -/
theorem statusCheck_retry_policy_witness :
    (∀ st msg,
      (.err none "socket hang up" : ApiResult) = .err st msg →
      processStatusJob
          { paymentId := some 3, payid := some "T-9", provider := "POLi",
            checkTime := "3min" }
          (.err none "socket hang up") true =
        .ok { paymentId := 3, payid := "T-9", provider := "POLi",
              status := "error", message := msg } ∧
      runBullJob paymentStatusQueueOptions
          (processStatusJob
            { paymentId := some 3, payid := some "T-9", provider := "POLi",
              checkTime := "3min" }
            (.err none "socket hang up") true) =
        (1, true, false)) ∧
    (processStatusJob
        { paymentId := some 3, payid := some "T-9", provider := "POLi",
          checkTime := "3min" }
        (.err none "socket hang up") false =
      .error (.logFailed
        (poliCheckStatus (.err none "socket hang up")).message) ∧
      runBullJob paymentStatusQueueOptions
          (processStatusJob
            { paymentId := some 3, payid := some "T-9", provider := "POLi",
              checkTime := "3min" }
            (.err none "socket hang up") false) =
        (3, false, true)) ∧
    paymentStatusQueueOptions.attempts = 3 ∧
    paymentStatusQueueOptions.backoffType = "exponential" ∧
    (∀ k, bullBackoff paymentStatusQueueOptions k = 2000 * 2 ^ k) :=
  statusCheck_retry_policy
    { paymentId := some 3, payid := some "T-9", provider := "POLi",
      checkTime := "3min" }
    (.err none "socket hang up") 3 "T-9" rfl rfl rfl

/-! ### Lemmas about the provider → url map of `getStatusByToken` -/

theorem lookup_cons_pair (j k0 v0 : String) (rest : List (String × String)) :
    List.lookup j ((k0, v0) :: rest) =
      if j = k0 then some v0 else List.lookup j rest := by
  by_cases h : j = k0
  · subst h
    simp [List.lookup]
  · have hb : (j == k0) = false := by simpa using h
    simp [List.lookup, hb, h]

theorem lookup_upsert (m : List (String × String)) (k v j : String) :
    (upsert m k v).lookup j = if j = k then some v else m.lookup j := by
  induction m with
  | nil =>
    show List.lookup j ((k, v) :: []) = _
    rw [lookup_cons_pair]
  | cons e rest ih =>
    obtain ⟨k0, v0⟩ := e
    by_cases h0 : k0 = k
    · subst h0
      show List.lookup j (if k0 = k0 then (k0, v) :: rest else _) = _
      rw [if_pos rfl, lookup_cons_pair, lookup_cons_pair]
      by_cases hj : j = k0 <;> simp [hj]
    · show List.lookup j (if k0 = k then _ else (k0, v0) :: upsert rest k v) = _
      rw [if_neg h0, lookup_cons_pair, lookup_cons_pair, ih]
      by_cases hj : j = k0
      · have hjk : ¬ j = k := by
          intro he
          exact h0 (hj.symm.trans he)
        rw [if_pos hj, if_neg hjk, if_pos hj]
      · rw [if_neg hj, if_neg hj]

theorem foldl_tokenRowStep_isSome (j : String) :
    ∀ (rows : List TokenPaymentRow) (acc : List (String × String)),
      (acc.lookup j).isSome = true →
      ((rows.foldl tokenRowStep acc).lookup j).isSome = true := by
  intro rows
  induction rows with
  | nil => intro acc h; exact h
  | cons x t ih =>
    intro acc h
    apply ih
    by_cases hxs : x.status = "success"
    · cases hxu : x.paymentUrl with
      | none =>
        have hstep : tokenRowStep acc x = acc := by
          unfold tokenRowStep
          rw [if_pos hxs, hxu]
        rw [hstep]
        exact h
      | some u =>
        by_cases hue : u = ""
        · have hstep : tokenRowStep acc x = acc := by
            unfold tokenRowStep
            rw [if_pos hxs, hxu]
            exact if_pos hue
          rw [hstep]
          exact h
        · have hstep : tokenRowStep acc x = upsert acc x.provider u := by
            unfold tokenRowStep
            rw [if_pos hxs, hxu]
            exact if_neg hue
          rw [hstep, lookup_upsert]
          by_cases hj : j = x.provider
          · rw [if_pos hj]
            rfl
          · rw [if_neg hj]
            exact h
    · have hstep : tokenRowStep acc x = acc := by
        unfold tokenRowStep
        rw [if_neg hxs]
      rw [hstep]
      exact h

theorem foldl_tokenRowStep_mem (r : TokenPaymentRow) (u : String)
    (hs : r.status = "success") (hu : r.paymentUrl = some u) (hne : ¬ u = "") :
    ∀ (rows : List TokenPaymentRow) (acc : List (String × String)),
      r ∈ rows →
      (((rows.foldl tokenRowStep acc)).lookup r.provider).isSome = true := by
  intro rows
  induction rows with
  | nil => intro acc h; cases h
  | cons x t ih =>
    intro acc hr
    rcases List.mem_cons.mp hr with h | h
    · subst h
      rw [List.foldl_cons]
      apply foldl_tokenRowStep_isSome
      have hstep : tokenRowStep acc r = upsert acc r.provider u := by
        unfold tokenRowStep
        rw [if_pos hs, hu]
        exact if_neg hne
      rw [hstep, lookup_upsert, if_pos rfl]
      rfl
    · exact ih (tokenRowStep acc x) h

theorem foldl_tokenRowStep_lookup_eq (j v : String) :
    ∀ (rows : List TokenPaymentRow) (acc : List (String × String)),
      (rows.foldl tokenRowStep acc).lookup j = some v →
      acc.lookup j = some v ∨
      ∃ r2, r2 ∈ rows ∧ r2.provider = j ∧ r2.status = "success" ∧
            r2.paymentUrl = some v := by
  intro rows
  induction rows with
  | nil => intro acc h; exact Or.inl h
  | cons x t ih =>
    intro acc h
    rcases ih (tokenRowStep acc x) h with h1 | ⟨r2, hm, hp, hs2, hu2⟩
    · by_cases hxs : x.status = "success"
      · cases hxu : x.paymentUrl with
        | none =>
          have hstep : tokenRowStep acc x = acc := by
            unfold tokenRowStep
            rw [if_pos hxs, hxu]
          rw [hstep] at h1
          exact Or.inl h1
        | some u =>
          by_cases hue : u = ""
          · have hstep : tokenRowStep acc x = acc := by
              unfold tokenRowStep
              rw [if_pos hxs, hxu]
              exact if_pos hue
            rw [hstep] at h1
            exact Or.inl h1
          · have hstep : tokenRowStep acc x = upsert acc x.provider u := by
              unfold tokenRowStep
              rw [if_pos hxs, hxu]
              exact if_neg hue
            rw [hstep, lookup_upsert] at h1
            by_cases hj : j = x.provider
            · rw [if_pos hj] at h1
              refine Or.inr ⟨x, List.mem_cons_self x t, hj.symm, hxs, ?_⟩
              rw [hxu, Option.some.inj h1]
            · rw [if_neg hj] at h1
              exact Or.inl h1
      · have hstep : tokenRowStep acc x = acc := by
          unfold tokenRowStep
          rw [if_neg hxs]
        rw [hstep] at h1
        exact Or.inl h1
    · exact Or.inr ⟨r2, List.mem_cons_of_mem x hm, hp, hs2, hu2⟩

/-- Claim C8: the status-by-token query aggregates one map entry per
provider that has a successful, URL-bearing payment — every such provider
is present in the returned map, with a URL that really comes from one of
that provider's successful rows — and returns the `pending` object when no
successful payment exists yet. -/
theorem getStatusByToken_spec (rows : List TokenPaymentRow) :
    ((∀ r ∈ rows, ¬ r.status = "success") →
      getStatusByToken rows =
        { status := "pending", message := some "Payment processing",
          payments := [] }) ∧
    (∀ r, r ∈ rows → r.status = "success" → ∀ u, r.paymentUrl = some u →
      ¬ u = "" →
      (getStatusByToken rows).status = "success" ∧
      ∃ v, (getStatusByToken rows).payments.lookup r.provider = some v ∧
        ∃ r2, r2 ∈ rows ∧ r2.provider = r.provider ∧ r2.status = "success" ∧
              r2.paymentUrl = some v) := by
  constructor
  · intro hall
    have hfil : rows.filter (fun r => r.status == "success") = [] := by
      rw [List.filter_eq_nil_iff]
      intro a ha
      simpa using hall a ha
    simp [getStatusByToken, hfil]
  · intro r hr hs u hu hne
    have hrf : r ∈ rows.filter (fun r => r.status == "success") :=
      List.mem_filter.mpr ⟨hr, by simp [hs]⟩
    have hfe : (rows.filter (fun r => r.status == "success")).isEmpty = false := by
      rcases hq : rows.filter (fun r => r.status == "success") with _ | ⟨a, t⟩
      · rw [hq] at hrf
        cases hrf
      · rw [hq]
        rfl
    have hres : getStatusByToken rows =
        { status := "success", message := none,
          payments := (rows.filter (fun r => r.status == "success")).foldl
            tokenRowStep [] } := by
      rw [getStatusByToken]
      simp [hfe]
    rw [hres]
    refine ⟨rfl, ?_⟩
    have hsome := foldl_tokenRowStep_mem r u hs hu hne
      (rows.filter (fun r => r.status == "success")) [] hrf
    rcases Option.isSome_iff_exists.mp hsome with ⟨v, hv⟩
    refine ⟨v, hv, ?_⟩
    rcases foldl_tokenRowStep_lookup_eq r.provider v
        (rows.filter (fun r => r.status == "success")) [] hv with h0 | ⟨r2, hm, hp, hs2, hu2⟩
    · simp [List.lookup] at h0
    · exact ⟨r2, (List.mem_filter.mp hm).1, hp, hs2, hu2⟩

/-- Witness for `getStatusByToken_spec`: one successful POLi row and one
failed BLINK row — the result is `success` and the map has a POLi entry
backed by a successful row. -/
theorem getStatusByToken_spec_witness :
    (getStatusByToken
      [{ paymentUrl := some "https://poli.example/link", status := "success",
         createdAt := 2, errorMessage := none, provider := "POLi" },
       { paymentUrl := none, status := "failed", createdAt := 1,
         errorMessage := some "Request failed", provider := "BLINK" }]).status =
      "success" ∧
    ∃ v, (getStatusByToken
      [{ paymentUrl := some "https://poli.example/link", status := "success",
         createdAt := 2, errorMessage := none, provider := "POLi" },
       { paymentUrl := none, status := "failed", createdAt := 1,
         errorMessage := some "Request failed", provider := "BLINK" }]).payments.lookup
        "POLi" = some v ∧
      ∃ r2, r2 ∈
        ([{ paymentUrl := some "https://poli.example/link", status := "success",
            createdAt := 2, errorMessage := none, provider := "POLi" },
          { paymentUrl := none, status := "failed", createdAt := 1,
            errorMessage := some "Request failed", provider := "BLINK" }] :
          List TokenPaymentRow) ∧
        r2.provider = "POLi" ∧ r2.status = "success" ∧
        r2.paymentUrl = some v :=
  (getStatusByToken_spec
    [({ paymentUrl := some "https://poli.example/link", status := "success",
        createdAt := 2, errorMessage := none, provider := "POLi" } :
        TokenPaymentRow),
     { paymentUrl := none, status := "failed", createdAt := 1,
       errorMessage := some "Request failed", provider := "BLINK" }]).2
    ({ paymentUrl := some "https://poli.example/link", status := "success",
       createdAt := 2, errorMessage := none, provider := "POLi" } :
       TokenPaymentRow)
    (by simp) rfl "https://poli.example/link" rfl (by decide)

end Mware
